import Mathlib

/-!
Verification of the runtime schema-inspection tool of the `dash` repository
(file `dash/tools/introspect.py`, function `introspect_schema` and helper
`_is_mssql`).

The Python function is shallowly embedded: the database (reachable through a
SQLAlchemy engine/inspector in the source) is modelled as a record `Db` of
response functions, each returning `Except DbErr` to model the
`OperationalError` / `DatabaseError` exceptions the source catches.  String
primitives used by the source (Python `str.lower`, slicing `[:30]`,
`sorted`, substring membership `in`) are modelled over `List Char` so that
all definitions evaluate inside the kernel.
-/

namespace Dash

/-! ### Python string primitives -/

/-- Lexicographic (code-point) comparison of character lists, the order
Python uses when comparing strings with `<=`. -/
def lexLe : List Char → List Char → Bool
  | [], _ => true
  | _ :: _, [] => false
  | a :: as, b :: bs =>
    if a.toNat < b.toNat then true
    else if b.toNat < a.toNat then false
    else lexLe as bs

/-- String comparison used by Python `sorted` on strings. -/
def strLeB (a b : String) : Bool := lexLe a.data b.data

/-- Python `str.lower` (the source only ever lowercases ASCII identifier
names; `Char.toLower` lowercases exactly the ASCII uppercase letters). -/
def pyLower (s : String) : String := ⟨s.data.map Char.toLower⟩

/-- Python slicing `s[:n]`: the first `n` characters of `s`. -/
def pyTake (n : Nat) (s : String) : String := ⟨s.data.take n⟩

/-- Python `sorted` on a list of strings: ascending lexicographic order.
Implemented with insertion sort, which agrees with Python `sorted` on
strings (equal strings are indistinguishable, so stability is moot). -/
def pySorted (l : List String) : List String :=
  List.insertionSort (fun a b => strLeB a b = true) l

/-- Substring membership over character lists, modelling Python `pat in s`. -/
def containsSub (pat : List Char) : List Char → Bool
  | [] => pat.isEmpty
  | c :: rest => pat.isPrefixOf (c :: rest) || containsSub pat rest

/-! ### Cells and their rendering -/

/-- A database cell as delivered by the driver: SQL NULL arrives as Python
`None`; other values arrive as ints, strings or bools.  `truthy` is Python
truthiness, `pyStr` is Python `str`. -/
inductive Cell where
  | null
  | intVal (i : Int)
  | strVal (s : String)
  | boolVal (b : Bool)
deriving DecidableEq, Repr

def Cell.truthy : Cell → Bool
  | .null => false
  | .intVal i => i != 0
  | .strVal s => s != ""
  | .boolVal b => b

def Cell.pyStr : Cell → String
  | .null => "None"
  | .intVal i => toString i
  | .strVal s => s
  | .boolVal b => if b then "True" else "False"

/-- Per-cell rendering in the sample-row loop of the source, literally
the expression `str(v)[:30] if v else "NULL"`. -/
def renderCell (v : Cell) : String :=
  if v.truthy then pyTake 30 v.pyStr else "NULL"

/-! ### Database model -/

/-- The two exception classes caught by the source:
`sqlalchemy.exc.OperationalError` and `sqlalchemy.exc.DatabaseError`, each
carrying its rendered message (Python `str(e)`). -/
inductive DbErr where
  | operational (msg : String)
  | database (msg : String)
deriving DecidableEq, Repr

/-- The message text an exception renders as in an f-string. -/
def DbErr.msg : DbErr → String
  | .operational m => m
  | .database m => m

/-- One element of the list returned by `insp.get_columns`: a mapping with
keys `name`, `type` (a type object rendered as free text) and optionally
`nullable` (the source reads it with `c.get("nullable", True)`, so the
field is optional here, defaulting to true at the use site). -/
structure ColumnInfo where
  name : String
  type : String
  nullable : Option Bool
deriving DecidableEq, Repr

/-- The database as seen through the SQLAlchemy engine and inspector:
each operation the source performs, as a response function.  Metadata
calls and query execution may raise, hence `Except DbErr`.

`execScalar` is the value of `conn.execute(text(sql)).scalar()` for the
`SELECT COUNT(*)` text the source builds; a COUNT(*) query yields the
number of rows, a non-negative integer, hence `Nat`.

`execQuery` is the value of `conn.execute(text(sql))` for the sample
`SELECT` text: the column names (`result.keys()`) paired with the fetched
rows (`result.fetchall()`), each row a list of cells.

`getPkConstraint` models `insp.get_pk_constraint`: `none` when the result
is falsy, `some cs` when it holds a `constrained_columns` entry `cs`
(possibly empty). -/
structure Db where
  getTableNames : Except DbErr (List String)
  getViewNames : Except DbErr (List String)
  getColumns : String → Except DbErr (List ColumnInfo)
  getPkConstraint : String → Except DbErr (Option (List String))
  execScalar : String → Except DbErr Nat
  execQuery : String → Except DbErr (List String × List (List Cell))

/-! ### Dialect selection and SQL text construction -/

/-- Source `_is_mssql`: check whether the database URL points to SQL
Server, literally the expression `"mssql" in db_url.lower()`. -/
def _is_mssql (db_url : String) : Bool :=
  containsSub "mssql".data (pyLower db_url).data

/-- Identifier quoting, the expression
`f"[{t}]" if mssql else f'"{t}"'` appearing (twice) in the source. -/
def quoteIdent (mssql : Bool) (t : String) : String :=
  if mssql then "[" ++ t ++ "]" else "\"" ++ t ++ "\""

/-- The per-table count query text `f"SELECT COUNT(*) FROM {quoted}"`. -/
def countSql (mssql : Bool) (t : String) : String :=
  "SELECT COUNT(*) FROM " ++ quoteIdent mssql t

/-- The sample query text: `f"SELECT TOP {sample_limit} * FROM {quoted}"`
for the SQL Server dialect, `f"SELECT * FROM {quoted} LIMIT {sample_limit}"`
otherwise.  The limit is interpolated verbatim, whatever its sign. -/
def sampleSql (mssql : Bool) (t : String) (sample_limit : Int) : String :=
  if mssql then
    "SELECT TOP " ++ toString sample_limit ++ " * FROM " ++ quoteIdent mssql t
  else
    "SELECT * FROM " ++ quoteIdent mssql t ++ " LIMIT " ++ toString sample_limit

/-- Python `f"{count:,}"`: the decimal digits of `count` grouped in threes
from the right, separated by commas.  `chunk3` splits a reversed digit
list into groups of three. -/
def chunk3 : List Char → List (List Char)
  | a :: b :: c :: d :: rest => [a, b, c] :: chunk3 (d :: rest)
  | l => [l]

def formatThousands (n : Nat) : String :=
  ⟨(List.intercalate [','] (chunk3 (toString n).data.reverse)).reverse⟩

/-! ### The listing branch (no target given) -/

/-- One bullet of the Tables section.  The source wraps the count query of
each table in its own try/except: on success the bullet carries the
thousands-separated count, on `OperationalError` or `DatabaseError` the
bullet is the bare name. -/
def tableCountLine (db : Db) (mssql : Bool) (t : String) : String :=
  match db.execScalar (countSql mssql t) with
  | .ok count => "- **" ++ t ++ "** (" ++ formatThousands count ++ " rows)"
  | .error _ => "- **" ++ t ++ "**"

/-- The Views section, appended only when the view list is nonempty
(Python `if views:`). -/
def viewSection (views : List String) : List String :=
  if views.isEmpty then []
  else ["", "## Views", ""] ++ views.map (fun v => "- **" ++ v ++ "**")

/-- The `table_name is None` branch of the source: list all tables and
views, with per-table row counts where the count query succeeds. -/
def listingReport (db : Db) (mssql : Bool) : Except DbErr String := do
  let tables := pySorted (← db.getTableNames)
  let views := pySorted (← db.getViewNames)
  if tables.isEmpty && views.isEmpty then
    return "No tables or views found."
  let lines := ["## Tables", ""] ++ tables.map (tableCountLine db mssql) ++ viewSection views
  return String.intercalate "\n" lines

/-! ### The lookup branch (target given) -/

/-- Target resolution: exact membership in `all_tables + all_views` first,
then the case-insensitive fallback
`next((o for o in all_objects if o.lower() == table_name.lower()), None)`.
The Python truthiness test `if match:` coincides with an is-not-None test
here: an empty-string match would require the requested name to be the
empty string, which the exact-membership test would already have found. -/
def resolveTarget (all_objects : List String) (table_name : String) : Option String :=
  if all_objects.contains table_name then some table_name
  else all_objects.find? (fun o => pyLower o == pyLower table_name)

/-- The not-found message: the first 50 objects in database enumeration
order (`all_objects[:50]`), sorted, comma-joined, with a literal `...`
appended unconditionally. -/
def notFoundMessage (table_name : String) (all_objects : List String) : String :=
  "Table/view '" ++ table_name ++ "' not found. Available: " ++
    String.intercalate ", " (pySorted (all_objects.take 50)) ++ "..."

/-- The Columns section: header and one row per column, present only when
the column list is nonempty (Python `if cols:`); nullability defaults to
true when absent (`c.get("nullable", True)`). -/
def columnLines (cols : List ColumnInfo) : List String :=
  if cols.isEmpty then []
  else
    ["### Columns", "", "| Column | Type | Nullable |", "| --- | --- | --- |"] ++
      cols.map (fun c =>
        "| " ++ c.name ++ " | " ++ c.type ++ " | " ++
          (if c.nullable.getD true then "Yes" else "No") ++ " |") ++
      [""]

/-- The primary-key section.  The source guards with
`if table_name in all_tables:` and only then consults
`insp.get_pk_constraint`, keeping the section only when the result and its
`constrained_columns` entry are both truthy. -/
def pkSection (db : Db) (all_tables : List String) (table_name : String) :
    Except DbErr (List String) :=
  if all_tables.contains table_name then do
    match (← db.getPkConstraint table_name) with
    | some cs =>
        if cs.isEmpty then pure []
        else pure ["**Primary Key:** " ++ String.intercalate ", " cs, ""]
    | none => pure []
  else pure []

/-- Rendering of the sample query outcome: header row, separator row and
one row per fetched record on success (or a literal no-data marker when
no rows came back); an inline error note on `OperationalError` or
`DatabaseError`, which the source catches around the sample fetch. -/
def renderSampleResult (res : Except DbErr (List String × List (List Cell))) : List String :=
  match res with
  | .ok (col_names, rows) =>
      if rows.isEmpty then ["_No data_"]
      else
        ("| " ++ String.intercalate " | " col_names ++ " |") ::
        ("| " ++ String.intercalate " | " (List.replicate col_names.length "---") ++ " |") ::
        rows.map (fun row => "| " ++ String.intercalate " | " (row.map renderCell) ++ " |")
  | .error e => ["_Error: " ++ e.msg ++ "_"]

/-- The sample section: the source appends the `### Sample` header before
entering the guarded fetch, so the header precedes both data and error
renderings. -/
def sampleSection (db : Db) (mssql : Bool) (table_name : String) (sample_limit : Int) :
    List String :=
  "### Sample" :: renderSampleResult (db.execQuery (sampleSql mssql table_name sample_limit))

/-- The lines of the per-object report once the target has been resolved:
title, Columns section, primary-key section, and (when requested) the
sample section. -/
def reportLines (db : Db) (mssql : Bool) (all_tables : List String) (resolved : String)
    (include_sample_data : Bool) (sample_limit : Int) : Except DbErr (List String) := do
  let cols ← db.getColumns resolved
  let pkLines ← pkSection db all_tables resolved
  return ["## " ++ resolved, ""] ++ columnLines cols ++ pkLines ++
    (if include_sample_data then sampleSection db mssql resolved sample_limit else [])

/-- The branch of the source for a given `table_name`: fetch the combined
object list, resolve the target (with case-insensitive fallback), and
either report not-found or assemble the per-object report. -/
def lookupReport (db : Db) (mssql : Bool) (table_name : String)
    (include_sample_data : Bool) (sample_limit : Int) : Except DbErr String := do
  let all_tables ← db.getTableNames
  let all_views ← db.getViewNames
  let all_objects := all_tables ++ all_views
  match resolveTarget all_objects table_name with
  | none => return notFoundMessage table_name all_objects
  | some resolved =>
      let lines ← reportLines db mssql all_tables resolved include_sample_data sample_limit
      return String.intercalate "\n" lines

/-- Body of the outer try of `introspect_schema`. -/
def runInspect (db : Db) (mssql : Bool) (table_name : Option String)
    (include_sample_data : Bool) (sample_limit : Int) : Except DbErr String :=
  match table_name with
  | none => listingReport db mssql
  | some t => lookupReport db mssql t include_sample_data sample_limit

/-- The tool function `introspect_schema`.  The outer try/except converts
an escaping `OperationalError` into the connection-failure message and any
other `DatabaseError` into a generic error message; `OperationalError` is
a subclass of `DatabaseError`, and the source lists the subclass handler
first, matching this order of the cases. -/
def introspect_schema (db : Db) (mssql : Bool) (table_name : Option String)
    (include_sample_data : Bool) (sample_limit : Int) : String :=
  match runInspect db mssql table_name include_sample_data sample_limit with
  | .ok s => s
  | .error (.operational e) => "Error: Database connection failed - " ++ e
  | .error (.database e) => "Error: " ++ e

/-! ### Concrete database environments used as test inputs -/

/-- A view `t` whose single sample row holds the integer 0 (not NULL). -/
def db_c1 : Db where
  getTableNames := .ok []
  getViewNames := .ok ["t"]
  getColumns := fun _ => .ok []
  getPkConstraint := fun _ => .ok none
  execScalar := fun _ => .ok 0
  execQuery := fun _ => .ok (["x"], [[Cell.intVal 0]])

/-- Two tables whose names differ only in letter casing, with different
column lists, so their reports differ. -/
def db_c2 : Db where
  getTableNames := .ok ["FOO", "Foo"]
  getViewNames := .ok []
  getColumns := fun t =>
    .ok (if t = "FOO" then [⟨"a", "INT", some true⟩] else [⟨"b", "INT", some true⟩])
  getPkConstraint := fun _ => .ok none
  execScalar := fun _ => .ok 0
  execQuery := fun _ => .ok ([], [])

/-- A single table `Foo`, the unique case-insensitive match of `foo`. -/
def db_c2u : Db where
  getTableNames := .ok ["Foo"]
  getViewNames := .ok []
  getColumns := fun _ => .ok [⟨"a", "INT", some true⟩]
  getPkConstraint := fun _ => .ok (some ["a"])
  execScalar := fun _ => .ok 0
  execQuery := fun _ => .ok ([], [])

/-- Two tables and a view; the count query succeeds for table `a` and
fails for table `b`. -/
def db_c3 : Db where
  getTableNames := .ok ["b", "a"]
  getViewNames := .ok ["v"]
  getColumns := fun _ => .ok []
  getPkConstraint := fun _ => .ok none
  execScalar := fun s =>
    if s = "SELECT COUNT(*) FROM \"a\"" then .ok 1234
    else .error (.database "permission denied")
  execQuery := fun _ => .ok ([], [])

/-- A table with columns and a primary key whose sample query fails. -/
def db_c4 : Db where
  getTableNames := .ok ["t"]
  getViewNames := .ok []
  getColumns := fun _ => .ok [⟨"id", "INTEGER", some false⟩]
  getPkConstraint := fun _ => .ok (some ["id"])
  execScalar := fun _ => .ok 0
  execQuery := fun _ => .error (.database "sample failed")

/-- A view `t` on a database that reports an error exactly when the
LIMIT-0 sample query text is executed, and succeeds on any other query
text: the report then reveals which query text was issued. -/
def db_c5 : Db where
  getTableNames := .ok []
  getViewNames := .ok ["t"]
  getColumns := fun _ => .ok []
  getPkConstraint := fun _ => .ok none
  execScalar := fun _ => .ok 0
  execQuery := fun s =>
    if s = "SELECT * FROM \"t\" LIMIT 0" then .error (.database "LIMIT 0 QUERY EXECUTED")
    else .ok ([], [])

/-- A base table and a view on a database whose constraint metadata
reports a primary key for every object, the view included. -/
def db_c6 : Db where
  getTableNames := .ok ["base"]
  getViewNames := .ok ["v"]
  getColumns := fun _ => .ok [⟨"c1", "INT", some true⟩]
  getPkConstraint := fun _ => .ok (some ["c1"])
  execScalar := fun _ => .ok 0
  execQuery := fun _ => .ok ([], [])

/-- Three objects, none of which matches the target `ordrs`. -/
def db_c8 : Db where
  getTableNames := .ok ["zeta", "alpha"]
  getViewNames := .ok ["mid"]
  getColumns := fun _ => .ok []
  getPkConstraint := fun _ => .ok none
  execScalar := fun _ => .ok 0
  execQuery := fun _ => .ok ([], [])

/-- A database whose table enumeration raises `OperationalError`. -/
def db_c9 : Db where
  getTableNames := .error (.operational "server unreachable")
  getViewNames := .ok []
  getColumns := fun _ => .ok []
  getPkConstraint := fun _ => .ok none
  execScalar := fun _ => .ok 0
  execQuery := fun _ => .ok ([], [])

/-- Two tables and a view in non-alphabetical enumeration order, none
matching the target `nope`. -/
def db_c10 : Db where
  getTableNames := .ok ["zz", "aa"]
  getViewNames := .ok ["mm"]
  getColumns := fun _ => .ok []
  getPkConstraint := fun _ => .ok none
  execScalar := fun _ => .ok 0
  execQuery := fun _ => .ok ([], [])

/-! ### Helper lemmas -/

theorem lexLe_total : ∀ as bs : List Char, lexLe as bs = true ∨ lexLe bs as = true
  | [], _ => Or.inl rfl
  | _ :: _, [] => Or.inr rfl
  | a :: as, b :: bs => by
    rcases Nat.lt_trichotomy a.toNat b.toNat with h | h | h
    · left
      simp [lexLe, h]
    · have h1 : ¬ a.toNat < b.toNat := by omega
      have h2 : ¬ b.toNat < a.toNat := by omega
      simpa [lexLe, h1, h2] using lexLe_total as bs
    · right
      simp [lexLe, h]

theorem lexLe_trans :
    ∀ as bs cs : List Char, lexLe as bs = true → lexLe bs cs = true → lexLe as cs = true
  | [], _, _, _, _ => rfl
  | _ :: _, [], _, hab, _ => by simp [lexLe] at hab
  | _ :: _, _ :: _, [], _, hbc => by simp [lexLe] at hbc
  | a :: as, b :: bs, c :: cs, hab, hbc => by
    simp only [lexLe] at hab hbc ⊢
    rcases Nat.lt_trichotomy a.toNat b.toNat with h1 | h1 | h1 <;>
      rcases Nat.lt_trichotomy b.toNat c.toNat with h2 | h2 | h2 <;>
      simp_all [Nat.lt_irrefl] <;>
      first
        | omega
        | (have hac : a.toNat = c.toNat := by omega
           simp_all [Nat.lt_irrefl]
           exact lexLe_trans as bs cs hab hbc)
        | exact lexLe_trans as bs cs hab hbc

instance : IsTotal String (fun a b => strLeB a b = true) :=
  ⟨fun a b => lexLe_total a.data b.data⟩

instance : IsTrans String (fun a b => strLeB a b = true) :=
  ⟨fun a b c => lexLe_trans a.data b.data c.data⟩

theorem isPrefixOf_exists :
    ∀ pat l : List Char, pat.isPrefixOf l = true ↔ ∃ post, l = pat ++ post
  | [], l => by simp [List.isPrefixOf]
  | a :: pat, [] => by simp [List.isPrefixOf]
  | a :: pat, b :: l => by
    simp only [List.isPrefixOf, Bool.and_eq_true, beq_iff_eq]
    constructor
    · rintro ⟨rfl, h⟩
      obtain ⟨post, rfl⟩ := (isPrefixOf_exists pat l).mp h
      exact ⟨post, rfl⟩
    · rintro ⟨post, h⟩
      injection h with h1 h2
      subst h1
      exact ⟨rfl, (isPrefixOf_exists pat l).mpr ⟨post, h2⟩⟩

theorem containsSub_exists :
    ∀ pat l : List Char, containsSub pat l = true ↔ ∃ pre post, l = pre ++ (pat ++ post)
  | pat, [] => by
    simp only [containsSub, List.isEmpty_iff]
    constructor
    · rintro rfl
      exact ⟨[], [], rfl⟩
    · rintro ⟨pre, post, h⟩
      rcases List.append_eq_nil.mp h.symm with ⟨rfl, h2⟩
      rcases List.append_eq_nil.mp h2 with ⟨rfl, rfl⟩
      rfl
  | pat, c :: rest => by
    simp only [containsSub, Bool.or_eq_true]
    constructor
    · rintro (h | h)
      · obtain ⟨post, hp⟩ := (isPrefixOf_exists pat (c :: rest)).mp h
        exact ⟨[], post, hp⟩
      · obtain ⟨pre, post, hp⟩ := (containsSub_exists pat rest).mp h
        exact ⟨c :: pre, post, by rw [hp]; rfl⟩
    · rintro ⟨pre, post, hp⟩
      match pre, hp with
      | [], hp =>
        exact Or.inl ((isPrefixOf_exists pat (c :: rest)).mpr ⟨post, hp⟩)
      | c' :: pre', hp =>
        injection hp with h1 h2
        exact Or.inr ((containsSub_exists pat rest).mpr ⟨pre', post, h2⟩)

theorem pySorted_eq_nil_iff (l : List String) : pySorted l = [] ↔ l = [] := by
  constructor
  · intro h
    have hp := List.perm_insertionSort (fun a b => strLeB a b = true) l
    rw [pySorted] at h
    rw [h] at hp
    exact hp.symm.eq_nil
  · rintro rfl
    rfl

theorem resolveTarget_eq_none {l : List String} {t : String}
    (h1 : l.contains t = false) (h2 : ∀ o ∈ l, pyLower o ≠ pyLower t) :
    resolveTarget l t = none := by
  unfold resolveTarget
  simp only [h1, Bool.false_eq_true, if_false]
  rw [List.find?_eq_none]
  intro x hx
  simpa [beq_iff_eq] using h2 x hx

theorem resolveTarget_exact {l : List String} {t : String} (h : l.contains t = true) :
    resolveTarget l t = some t := by
  unfold resolveTarget
  rw [h, if_pos rfl]

theorem resolveTarget_unique {l : List String} {t T : String}
    (h1 : l.contains t = false) (hT : T ∈ l) (hlow : pyLower T = pyLower t)
    (huniq : ∀ o ∈ l, pyLower o = pyLower t → o = T) :
    resolveTarget l t = some T := by
  unfold resolveTarget
  simp only [h1, Bool.false_eq_true, if_false]
  have hsome : (l.find? (fun o => pyLower o == pyLower t)).isSome :=
    List.find?_isSome.mpr ⟨T, hT, by simp [hlow]⟩
  obtain ⟨o, ho⟩ := Option.isSome_iff_exists.mp hsome
  have hpo : pyLower o = pyLower t := by
    have := List.find?_some ho
    simpa [beq_iff_eq] using this
  have hoT : o = T := huniq o (List.mem_of_find?_eq_some ho) hpo
  rw [ho, hoT]

theorem lookupReport_ok {db : Db} {ts vs L : List String} {req t : String}
    {mssql incl : Bool} {n : Int}
    (h1 : db.getTableNames = .ok ts) (h2 : db.getViewNames = .ok vs)
    (h3 : resolveTarget (ts ++ vs) req = some t)
    (h4 : reportLines db mssql ts t incl n = .ok L) :
    lookupReport db mssql req incl n = .ok (String.intercalate "\n" L) := by
  unfold lookupReport
  rw [h1, h2]
  simp only [Except.bind, bind, pure, Except.pure, h3, h4]

theorem lookupReport_notFound {db : Db} {ts vs : List String} {req : String}
    (mssql incl : Bool) (n : Int)
    (h1 : db.getTableNames = .ok ts) (h2 : db.getViewNames = .ok vs)
    (h3 : resolveTarget (ts ++ vs) req = none) :
    lookupReport db mssql req incl n = .ok (notFoundMessage req (ts ++ vs)) := by
  unfold lookupReport
  rw [h1, h2]
  simp only [Except.bind, bind, pure, Except.pure, h3]

theorem reportLines_ok {db : Db} {ts pkL : List String} {t : String}
    {cols : List ColumnInfo} {mssql incl : Bool} {n : Int}
    (h4 : db.getColumns t = .ok cols) (h5 : pkSection db ts t = .ok pkL) :
    reportLines db mssql ts t incl n =
      .ok (["## " ++ t, ""] ++ columnLines cols ++ pkL ++
        (if incl then sampleSection db mssql t n else [])) := by
  unfold reportLines
  rw [h4]
  simp only [Except.bind, bind, pure, Except.pure, h5]

theorem pyTake_length_le (n : Nat) (s : String) : (pyTake n s).length ≤ n :=
  List.length_take_le n s.data

theorem pySorted_isEmpty_false {l : List String} (h : l ≠ []) :
    (pySorted l).isEmpty = false := by
  cases hp : pySorted l with
  | nil => exact absurd ((pySorted_eq_nil_iff l).mp hp) h
  | cons a as => rfl

theorem reportLines_true {db : Db} {ts pkL : List String} {t : String}
    {cols : List ColumnInfo} (mssql : Bool) (n : Int)
    (h4 : db.getColumns t = .ok cols) (h5 : pkSection db ts t = .ok pkL) :
    reportLines db mssql ts t true n =
      .ok (["## " ++ t, ""] ++ columnLines cols ++ pkL ++ sampleSection db mssql t n) := by
  rw [reportLines_ok h4 h5]
  rfl

theorem reportLines_false {db : Db} {ts pkL : List String} {t : String}
    {cols : List ColumnInfo} (mssql : Bool) (n : Int)
    (h4 : db.getColumns t = .ok cols) (h5 : pkSection db ts t = .ok pkL) :
    reportLines db mssql ts t false n =
      .ok (["## " ++ t, ""] ++ columnLines cols ++ pkL) := by
  rw [reportLines_ok h4 h5]
  simp

theorem introspect_lookup (db : Db) (mssql : Bool) (req : String) (incl : Bool) (n : Int) :
    introspect_schema db mssql (some req) incl n =
      match lookupReport db mssql req incl n with
      | .ok s => s
      | .error (.operational e) => "Error: Database connection failed - " ++ e
      | .error (.database e) => "Error: " ++ e := rfl

theorem introspect_listing (db : Db) (mssql : Bool) (incl : Bool) (n : Int) :
    introspect_schema db mssql none incl n =
      match listingReport db mssql with
      | .ok s => s
      | .error (.operational e) => "Error: Database connection failed - " ++ e
      | .error (.database e) => "Error: " ++ e := rfl

/-! ### Claims -/

/-- C7: the dialect flag is mssql exactly when the connection string
contains the substring `mssql` case-insensitively; under the mssql flag
identifiers are bracket-quoted and the sample query uses the `TOP n`
prefix form, and otherwise identifiers are double-quote-quoted and the
sample query uses the trailing `LIMIT n` form. -/
theorem c7_dialect_selection (db_url t : String) (n : Int) :
    (_is_mssql db_url = true ↔
      ∃ pre post, (pyLower db_url).data = pre ++ ("mssql".data ++ post))
    ∧ quoteIdent true t = "[" ++ t ++ "]"
    ∧ quoteIdent false t = "\"" ++ t ++ "\""
    ∧ sampleSql true t n = "SELECT TOP " ++ toString n ++ " * FROM " ++ quoteIdent true t
    ∧ sampleSql false t n = "SELECT * FROM " ++ quoteIdent false t ++ " LIMIT " ++ toString n
    ∧ countSql true t = "SELECT COUNT(*) FROM " ++ quoteIdent true t
    ∧ countSql false t = "SELECT COUNT(*) FROM " ++ quoteIdent false t :=
  ⟨containsSub_exists "mssql".data (pyLower db_url).data, rfl, rfl, rfl, rfl, rfl, rfl⟩

/-- C1 counterexample: the sample row of `db_c1` holds the integer 0,
which is not database-NULL, yet the report renders its cell as the
literal token NULL instead of the text 0, because the source tests
Python truthiness (`if v`) rather than is-not-None. -/
theorem c1_null_rendering_counterexample :
    introspect_schema db_c1 false (some "t") true 5 =
      "## t\n\n### Sample\n| x |\n| --- |\n| NULL |"
    ∧ Cell.intVal 0 ≠ Cell.null
    ∧ pyTake 30 (Cell.pyStr (Cell.intVal 0)) = "0" := by
  refine ⟨by decide, by decide, by decide⟩

/-- C1 (amended): in the sample-rows rendering, every cell renders through
the per-cell function `renderCell`; a Python-falsy cell (database-NULL,
but also the integer 0, the empty string and False) renders as the
literal token NULL, and every truthy cell is converted to text and
truncated to at most 30 characters. -/
theorem c1_null_rendering_amended {db : Db} {ts vs keys : List String}
    {rows : List (List Cell)} {req t : String} {cols : List ColumnInfo}
    {pkL : List String} {mssql : Bool} {n : Int}
    (h1 : db.getTableNames = .ok ts) (h2 : db.getViewNames = .ok vs)
    (h3 : resolveTarget (ts ++ vs) req = some t)
    (h4 : db.getColumns t = .ok cols) (h5 : pkSection db ts t = .ok pkL)
    (h6 : db.execQuery (sampleSql mssql t n) = .ok (keys, rows))
    (h7 : rows ≠ []) :
    introspect_schema db mssql (some req) true n =
      String.intercalate "\n"
        (["## " ++ t, ""] ++ columnLines cols ++ pkL ++
          ("### Sample" ::
           ("| " ++ String.intercalate " | " keys ++ " |") ::
           ("| " ++ String.intercalate " | " (List.replicate keys.length "---") ++ " |") ::
           rows.map (fun row =>
             "| " ++ String.intercalate " | " (row.map renderCell) ++ " |")))
    ∧ ∀ c : Cell,
        (c.truthy = false → renderCell c = "NULL")
        ∧ (c.truthy = true →
            renderCell c = pyTake 30 c.pyStr ∧ (renderCell c).length ≤ 30) := by
  obtain ⟨r, rs, rfl⟩ : ∃ r rs, rows = r :: rs := by
    cases rows with
    | nil => exact absurd rfl h7
    | cons r rs => exact ⟨r, rs, rfl⟩
  constructor
  · have hR := reportLines_true mssql n h4 h5
    have hL := lookupReport_ok h1 h2 h3 hR
    rw [introspect_lookup, hL]
    unfold sampleSection
    rw [h6]
    rfl
  · intro c
    refine ⟨fun h => by simp [renderCell, h], fun h => ⟨by simp [renderCell, h], ?_⟩⟩
    simp only [renderCell, h, if_true]
    exact pyTake_length_le 30 _

/-- C1 (amended) witness: the amended statement applied to `db_c1`. -/
theorem c1_null_rendering_amended_witness :
    introspect_schema db_c1 false (some "t") true 5 =
      String.intercalate "\n"
        (["## " ++ "t", ""] ++ columnLines [] ++ [] ++
          ("### Sample" ::
           ("| " ++ String.intercalate " | " ["x"] ++ " |") ::
           ("| " ++ String.intercalate " | " (List.replicate (["x"] : List String).length "---") ++ " |") ::
           ([[Cell.intVal 0]] : List (List Cell)).map (fun row =>
             "| " ++ String.intercalate " | " (row.map renderCell) ++ " |")))
    ∧ ∀ c : Cell,
        (c.truthy = false → renderCell c = "NULL")
        ∧ (c.truthy = true →
            renderCell c = pyTake 30 c.pyStr ∧ (renderCell c).length ≤ 30) :=
  @c1_null_rendering_amended db_c1 [] ["t"] ["x"] [[Cell.intVal 0]] "t" "t" [] []
    false 5 rfl rfl (by decide) rfl rfl rfl (by decide)

/-- C2 counterexample: `db_c2` holds two tables FOO and Foo whose names
differ only in casing and whose reports differ; requesting the absent
spelling foo resolves to the first case-insensitive match FOO, so the
report differs from the exact-case lookup of Foo, although Foo exists
only with different letter-casing than foo. -/
theorem c2_case_insensitive_counterexample :
    ("Foo" ∈ (["FOO", "Foo"] ++ ([] : List String)))
    ∧ "Foo" ≠ "foo"
    ∧ pyLower "Foo" = pyLower "foo"
    ∧ ("foo" ∉ (["FOO", "Foo"] ++ ([] : List String)))
    ∧ introspect_schema db_c2 false (some "foo") false 5 ≠
        introspect_schema db_c2 false (some "Foo") false 5 := by
  refine ⟨by decide, by decide, by decide, by decide, by decide⟩

/-- C2 (amended): the case-insensitive fallback picks the first match in
database enumeration order; when exactly one object of the combined
table+view set matches the requested name case-insensitively, inspect on
the requested name produces the same report as inspect on the
exactly-cased name. -/
theorem c2_case_insensitive_amended {db : Db} {ts vs : List String} {req T : String}
    (mssql incl : Bool) (n : Int)
    (h1 : db.getTableNames = .ok ts) (h2 : db.getViewNames = .ok vs)
    (h3 : (ts ++ vs).contains req = false)
    (h4 : T ∈ ts ++ vs) (h5 : pyLower T = pyLower req)
    (h6 : ∀ o ∈ ts ++ vs, pyLower o = pyLower req → o = T) :
    introspect_schema db mssql (some req) incl n =
      introspect_schema db mssql (some T) incl n := by
  have hres : resolveTarget (ts ++ vs) req = some T := resolveTarget_unique h3 h4 h5 h6
  have hres2 : resolveTarget (ts ++ vs) T = some T :=
    resolveTarget_exact (List.elem_eq_true_of_mem h4)
  have hlook : lookupReport db mssql req incl n = lookupReport db mssql T incl n := by
    unfold lookupReport
    rw [h1, h2]
    simp only [Except.bind, bind, pure, Except.pure, hres, hres2]
  rw [introspect_lookup, introspect_lookup, hlook]

/-- C2 (amended) witness: on `db_c2u` the only object is Foo, and
requesting foo yields the same report as requesting Foo. -/
theorem c2_case_insensitive_amended_witness :
    introspect_schema db_c2u false (some "foo") false 5 =
      introspect_schema db_c2u false (some "Foo") false 5 :=
  c2_case_insensitive_amended false false 5 rfl rfl (by decide) (by decide)
    (by decide) (by decide)

/-- C3: in the listing mode (no target), each table of the sorted table
list contributes exactly one entry; a table whose COUNT(*) query succeeds
is listed with its (non-negative, `Nat`-valued) row count, a table whose
COUNT(*) query fails with a database-level error is listed by name alone,
and the entry of a table depends only on the response to that table's own
count query, so one failure cannot affect the other entries. -/
theorem c3_listing_counts {db : Db} {ts vs : List String} (mssql incl : Bool) (n : Int)
    (h1 : db.getTableNames = .ok ts) (h2 : db.getViewNames = .ok vs)
    (h3 : ¬(ts = [] ∧ vs = [])) :
    introspect_schema db mssql none incl n =
      String.intercalate "\n"
        (["## Tables", ""] ++ (pySorted ts).map (tableCountLine db mssql) ++
          viewSection (pySorted vs))
    ∧ (∀ t cnt, db.execScalar (countSql mssql t) = .ok cnt →
        tableCountLine db mssql t = "- **" ++ t ++ "** (" ++ formatThousands cnt ++ " rows)")
    ∧ (∀ t e, db.execScalar (countSql mssql t) = .error e →
        tableCountLine db mssql t = "- **" ++ t ++ "**")
    ∧ (∀ (db' : Db) t, db'.execScalar (countSql mssql t) = db.execScalar (countSql mssql t) →
        tableCountLine db' mssql t = tableCountLine db mssql t) := by
  refine ⟨?_, ?_, ?_, ?_⟩
  · have he : ((pySorted ts).isEmpty && (pySorted vs).isEmpty) = false := by
      rcases Decidable.not_and_iff_or_not.mp h3 with h | h
      · rw [pySorted_isEmpty_false h]
        rfl
      · rw [pySorted_isEmpty_false h]
        simp
    rw [introspect_listing]
    unfold listingReport
    rw [h1, h2]
    simp only [Except.bind, bind, pure, Except.pure, he]
    rfl
  · intro t cnt h
    unfold tableCountLine
    rw [h]
  · intro t e h
    unfold tableCountLine
    rw [h]
  · intro db' t h
    unfold tableCountLine
    rw [h]

/-- C3 witness: on `db_c3` the count query succeeds for table a with
1234 rows and fails for table b; the listing carries both entries. -/
theorem c3_listing_counts_witness :
    introspect_schema db_c3 false none false 5 =
      "## Tables\n\n- **a** (1,234 rows)\n- **b**\n\n## Views\n\n- **v**"
    ∧ tableCountLine db_c3 false "a" = "- **a** (1,234 rows)"
    ∧ tableCountLine db_c3 false "b" = "- **b**" := by
  have h := @c3_listing_counts db_c3 ["b", "a"] ["v"] false false 5 rfl rfl (by decide)
  exact ⟨h.1.trans (by decide), (h.2.1 "a" 1234 rfl).trans (by decide),
    (h.2.2.1 "b" (.database "permission denied") rfl).trans (by decide)⟩

/-- C4: when the sample-row query fails with a database-level error, the
report still contains the previously gathered title, columns section and
primary-key section, with an inline error note appended inside the sample
section; it equals the no-sample report extended by exactly those two
sample lines. -/
theorem c4_sample_failure_partial_report {db : Db} {ts vs pkL : List String}
    {req t : String} {cols : List ColumnInfo} {mssql : Bool} {n : Int} {e : DbErr}
    (h1 : db.getTableNames = .ok ts) (h2 : db.getViewNames = .ok vs)
    (h3 : resolveTarget (ts ++ vs) req = some t)
    (h4 : db.getColumns t = .ok cols) (h5 : pkSection db ts t = .ok pkL)
    (h6 : db.execQuery (sampleSql mssql t n) = .error e) :
    introspect_schema db mssql (some req) true n =
      String.intercalate "\n"
        (["## " ++ t, ""] ++ columnLines cols ++ pkL ++
          ["### Sample", "_Error: " ++ e.msg ++ "_"])
    ∧ introspect_schema db mssql (some req) false n =
      String.intercalate "\n" (["## " ++ t, ""] ++ columnLines cols ++ pkL) := by
  constructor
  · have hR := reportLines_true mssql n h4 h5
    have hL := lookupReport_ok h1 h2 h3 hR
    rw [introspect_lookup, hL]
    unfold sampleSection
    rw [h6]
    rfl
  · have hR := reportLines_false mssql n h4 h5
    have hL := lookupReport_ok h1 h2 h3 hR
    rw [introspect_lookup, hL]

/-- C4 witness: on `db_c4` the sample query fails but the columns and
primary-key sections are retained. -/
theorem c4_sample_failure_partial_report_witness :
    introspect_schema db_c4 false (some "t") true 5 =
      "## t\n\n### Columns\n\n| Column | Type | Nullable |\n| --- | --- | --- |\n| id | INTEGER | No |\n\n**Primary Key:** id\n\n### Sample\n_Error: sample failed_"
    ∧ introspect_schema db_c4 false (some "t") false 5 =
      "## t\n\n### Columns\n\n| Column | Type | Nullable |\n| --- | --- | --- |\n| id | INTEGER | No |\n\n**Primary Key:** id\n" := by
  have h := @c4_sample_failure_partial_report db_c4 ["t"] [] ["**Primary Key:** id", ""]
    "t" "t" [⟨"id", "INTEGER", some false⟩] false 5 (DbErr.database "sample failed")
    rfl rfl (by decide) rfl rfl rfl
  exact ⟨h.1.trans (by decide), h.2.trans (by decide)⟩

/-- C5 counterexample: with `sampleLimit = 0` and `includeSample` set, the
operation issues the sample query with the non-positive limit 0 verbatim
instead of treating the value as an error or clamping it to 1: the report
for `db_c5` reflects exactly the response the database attaches to the
query text `SELECT * FROM "t" LIMIT 0`, while a run with limit 1 on the
same database shows no error. -/
theorem c5_no_limit_validation_counterexample :
    introspect_schema db_c5 false (some "t") true 0 =
      "## t\n\n### Sample\n_Error: LIMIT 0 QUERY EXECUTED_"
    ∧ sampleSql false "t" 0 = "SELECT * FROM \"t\" LIMIT 0"
    ∧ introspect_schema db_c5 false (some "t") true 1 =
      "## t\n\n### Sample\n_No data_" := by
  refine ⟨by decide, by decide, by decide⟩

/-- C5 (amended): the operation applies no validation to `sampleLimit`:
for any limit, non-positive included, the sample section renders the
database response to the query text carrying that limit interpolated
verbatim (TOP form under mssql, trailing LIMIT form otherwise). -/
theorem c5_no_limit_validation_amended {db : Db} {ts vs pkL : List String}
    {req t : String} {cols : List ColumnInfo} {mssql : Bool} {n : Int}
    (h0 : n ≤ 0)
    (h1 : db.getTableNames = .ok ts) (h2 : db.getViewNames = .ok vs)
    (h3 : resolveTarget (ts ++ vs) req = some t)
    (h4 : db.getColumns t = .ok cols) (h5 : pkSection db ts t = .ok pkL) :
    introspect_schema db mssql (some req) true n =
      String.intercalate "\n"
        (["## " ++ t, ""] ++ columnLines cols ++ pkL ++
          ("### Sample" :: renderSampleResult (db.execQuery (sampleSql mssql t n))))
    ∧ sampleSql false t n = "SELECT * FROM " ++ quoteIdent false t ++ " LIMIT " ++ toString n
    ∧ sampleSql true t n = "SELECT TOP " ++ toString n ++ " * FROM " ++ quoteIdent true t := by
  refine ⟨?_, rfl, rfl⟩
  have hR := reportLines_true mssql n h4 h5
  have hL := lookupReport_ok h1 h2 h3 hR
  rw [introspect_lookup, hL]
  rfl

/-- C5 (amended) witness: the amended statement applied to `db_c5` at
limit 0. -/
theorem c5_no_limit_validation_amended_witness :
    introspect_schema db_c5 false (some "t") true 0 =
      String.intercalate "\n"
        (["## " ++ "t", ""] ++ columnLines [] ++ [] ++
          ("### Sample" :: renderSampleResult (db_c5.execQuery (sampleSql false "t" 0))))
    ∧ sampleSql false "t" 0 = "SELECT * FROM " ++ quoteIdent false "t" ++ " LIMIT " ++ toString (0 : Int)
    ∧ sampleSql true "t" 0 = "SELECT TOP " ++ toString (0 : Int) ++ " * FROM " ++ quoteIdent true "t" :=
  @c5_no_limit_validation_amended db_c5 [] ["t"] [] "t" "t" [] false 0
    (by decide) rfl rfl (by decide) rfl rfl

/-- C6: for a target resolved to a view (present among the view names,
absent from the base-table names), the primary-key section is empty and
the report does not depend on the constraint metadata at all: replacing
the `getPkConstraint` response function by any other yields the same
report. -/
theorem c6_view_never_has_pk {db : Db} {ts vs : List String} {req t : String}
    (mssql incl : Bool) (n : Int) (g' : String → Except DbErr (Option (List String)))
    (h1 : db.getTableNames = .ok ts) (h2 : db.getViewNames = .ok vs)
    (h3 : resolveTarget (ts ++ vs) req = some t)
    (h4 : t ∈ vs) (h5 : ts.contains t = false) :
    pkSection db ts t = .ok []
    ∧ introspect_schema { db with getPkConstraint := g' } mssql (some req) incl n =
        introspect_schema db mssql (some req) incl n := by
  have hpk : pkSection db ts t = .ok [] := by
    unfold pkSection
    rw [h5]
    rfl
  refine ⟨hpk, ?_⟩
  have hpk2 :
      pkSection
        { db with
          getTableNames := Except.ok ts
          getViewNames := Except.ok vs
          getPkConstraint := g' }
        ts t = .ok [] := by
    unfold pkSection
    rw [h5]
    rfl
  have hrep2 :
      reportLines
        { db with
          getTableNames := Except.ok ts
          getViewNames := Except.ok vs
          getPkConstraint := g' }
        mssql ts t incl n
      = reportLines db mssql ts t incl n := by
    unfold reportLines
    rw [hpk2, hpk]
    rfl
  have hlook : lookupReport { db with getPkConstraint := g' } mssql req incl n
      = lookupReport db mssql req incl n := by
    unfold lookupReport
    rw [show ({ db with getPkConstraint := g' } : Db).getTableNames = db.getTableNames from rfl]
    rw [show ({ db with getPkConstraint := g' } : Db).getViewNames = db.getViewNames from rfl]
    rw [h1, h2]
    simp only [Except.bind, bind, pure, Except.pure, h3]
    rw [hrep2]
  rw [introspect_lookup, introspect_lookup, hlook]

/-- C6 witness: on `db_c6` the constraint metadata reports a primary key
for the view v, yet the report of v has no primary-key section and is
unchanged when that metadata is replaced. -/
theorem c6_view_never_has_pk_witness :
    pkSection db_c6 ["base"] "v" = .ok []
    ∧ introspect_schema { db_c6 with getPkConstraint := fun _ => .ok (some ["sneaky"]) }
        false (some "v") false 5 =
        introspect_schema db_c6 false (some "v") false 5 :=
  c6_view_never_has_pk false false 5 (fun _ => .ok (some ["sneaky"]))
    rfl rfl (by decide) (by decide) (by decide)

/-- C8: a target matching no object even after the case-insensitive retry
yields a NotFound-style message whose candidate list holds at most 50
comma-separated names (the first 50 objects, sorted). -/
theorem c8_not_found_candidates {db : Db} {ts vs : List String} {req : String}
    (mssql incl : Bool) (n : Int)
    (h1 : db.getTableNames = .ok ts) (h2 : db.getViewNames = .ok vs)
    (h3 : (ts ++ vs).contains req = false)
    (h4 : ∀ o ∈ ts ++ vs, pyLower o ≠ pyLower req) :
    introspect_schema db mssql (some req) incl n =
      "Table/view '" ++ req ++ "' not found. Available: " ++
        String.intercalate ", " (pySorted ((ts ++ vs).take 50)) ++ "..."
    ∧ (pySorted ((ts ++ vs).take 50)).length ≤ 50 := by
  constructor
  · have hres := resolveTarget_eq_none h3 h4
    have hl := lookupReport_notFound mssql incl n h1 h2 hres
    rw [introspect_lookup, hl]
    rfl
  · calc (pySorted ((ts ++ vs).take 50)).length
        = ((ts ++ vs).take 50).length :=
          List.length_insertionSort (fun a b => strLeB a b = true) ((ts ++ vs).take 50)
    _ ≤ 50 := List.length_take_le 50 (ts ++ vs)

/-- C8 witness: requesting the absent name ordrs on `db_c8`. -/
theorem c8_not_found_candidates_witness :
    introspect_schema db_c8 false (some "ordrs") false 5 =
      "Table/view 'ordrs' not found. Available: alpha, mid, zeta..."
    ∧ (pySorted (((["zeta", "alpha"] : List String) ++ ["mid"]).take 50)).length ≤ 50 := by
  have h := @c8_not_found_candidates db_c8 ["zeta", "alpha"] ["mid"] "ordrs"
    false false 5 rfl rfl (by decide) (by decide)
  exact ⟨h.1.trans (by decide), h.2⟩

/-- C9: every database failure escaping the body is converted to a
human-readable string returned as the tool result: an `OperationalError`
becomes the connection-failure message, any other `DatabaseError` becomes
a generic error message; in particular a connection-level failure while
enumerating tables, in listing as well as lookup mode, returns a message
beginning with the connection-failure text. -/
theorem c9_failure_to_string (db : Db) (mssql incl : Bool) (tn : Option String) (n : Int) :
    (∀ m, runInspect db mssql tn incl n = .error (.operational m) →
      introspect_schema db mssql tn incl n = "Error: Database connection failed - " ++ m)
    ∧ (∀ m, runInspect db mssql tn incl n = .error (.database m) →
      introspect_schema db mssql tn incl n = "Error: " ++ m)
    ∧ (∀ m, db.getTableNames = .error (.operational m) →
      introspect_schema db mssql tn incl n = "Error: Database connection failed - " ++ m) := by
  refine ⟨?_, ?_, ?_⟩
  · intro m h
    unfold introspect_schema
    rw [h]
  · intro m h
    unfold introspect_schema
    rw [h]
  · intro m h
    have hrun : runInspect db mssql tn incl n = .error (.operational m) := by
      cases tn with
      | none =>
        unfold runInspect listingReport
        rw [h]
        rfl
      | some t =>
        unfold runInspect lookupReport
        rw [h]
        rfl
    unfold introspect_schema
    rw [hrun]

/-- C9 witness: on `db_c9` the table enumeration raises
`OperationalError`, and the call returns the connection-failure text. -/
theorem c9_failure_to_string_witness :
    introspect_schema db_c9 false none false 5 =
      "Error: Database connection failed - " ++ "server unreachable" :=
  (c9_failure_to_string db_c9 false false none 5).2.2 "server unreachable" rfl

/-- C10: the candidate list of the NotFound message is the lexicographic
sort of the first 50 elements of the tables-then-views concatenation in
database enumeration order (a permutation of that first-50 slice, sorted),
and the message always ends with the literal suffix dot-dot-dot, even when
fewer than 50 candidates exist. -/
theorem c10_candidate_order_and_suffix {db : Db} {ts vs : List String} {req : String}
    (mssql incl : Bool) (n : Int)
    (h1 : db.getTableNames = .ok ts) (h2 : db.getViewNames = .ok vs)
    (h3 : (ts ++ vs).contains req = false)
    (h4 : ∀ o ∈ ts ++ vs, pyLower o ≠ pyLower req) :
    (pySorted ((ts ++ vs).take 50)).Perm ((ts ++ vs).take 50)
    ∧ List.Sorted (fun a b => strLeB a b = true) (pySorted ((ts ++ vs).take 50))
    ∧ introspect_schema db mssql (some req) incl n =
        ("Table/view '" ++ req ++ "' not found. Available: " ++
          String.intercalate ", " (pySorted ((ts ++ vs).take 50))) ++ "..." := by
  refine ⟨List.perm_insertionSort _ _, List.sorted_insertionSort _ _, ?_⟩
  have hres := resolveTarget_eq_none h3 h4
  have hl := lookupReport_notFound mssql incl n h1 h2 hres
  rw [introspect_lookup, hl]
  rfl

/-- C10 witness: on `db_c10` the enumeration order is zz, aa, mm, the
candidate list is its sort aa, mm, zz, and the three-candidate message
still carries the trailing dots. -/
theorem c10_candidate_order_and_suffix_witness :
    (pySorted (((["zz", "aa"] : List String) ++ ["mm"]).take 50)).Perm
      (((["zz", "aa"] : List String) ++ ["mm"]).take 50)
    ∧ List.Sorted (fun a b => strLeB a b = true)
        (pySorted (((["zz", "aa"] : List String) ++ ["mm"]).take 50))
    ∧ introspect_schema db_c10 false (some "nope") false 5 =
        ("Table/view '" ++ "nope" ++ "' not found. Available: " ++
          String.intercalate ", " (pySorted (((["zz", "aa"] : List String) ++ ["mm"]).take 50)))
          ++ "..." :=
  c10_candidate_order_and_suffix false false 5 rfl rfl (by decide) (by decide)

end Dash
